import Mathlib

/-!
Verification of the campus-project-hub backend's gamification leveling
engine and payment-transaction reconciliation workflow, as a shallow
embedding of the Go source.

Conventions of the embedding:
* Go `int` is modelled as `Int`; Go integer division truncates toward
  zero, which is `Int.div`.
* UUIDs are modelled as `Nat` identifiers; the database is modelled as
  lists of rows, with gorm's `First`/`Where` becoming `List.find?` and
  `Save` becoming a replace-by-primary-key map.
* `sha512` + hex encoding is an external library routine; the handler is
  parametrised by an abstract `sha512Hex : String → String` so that the
  control flow around signature comparison is modelled exactly.
* Go functions that return `error` become `Except`-valued functions; the
  distinct error messages of the source are modelled by an error
  enumeration.
-/

namespace CampusHub

namespace Services

/- Gamification constants — EXP points for actions (gamification service). -/

def ExpCreateProject : Int := 100

def ExpSellProject : Int := 150

def ExpBuyProject : Int := 50

def ExpReceiveLike : Int := 10

def ExpReceiveComment : Int := 5

def ExpProjectViewed : Int := 1

def ExpCreateArticle : Int := 75

def ExpArticleViewed : Int := 1

/- Level configuration. -/

def BaseExp : Int := 100

def MaxLevel : Int := 100

/-- Loop body of `GetLevelFromExp`.  The Go source iterates
`for level < MaxLevel { required := BaseExp*level*level; if totalExp < required { break }; level++ }`.
The loop increments `level` by one per iteration, so running it with a
fuel counter equal to `MaxLevel - level` terminates exactly when
`level = MaxLevel`, reproducing the `level < MaxLevel` guard: the
top-level call couples `level = 1` with fuel `99`. -/
def getLevelFromExpAux (totalExp : Int) : Nat → Int → Int
  | 0, level => level
  | fuel + 1, level =>
    if totalExp < BaseExp * level * level then level
    else getLevelFromExpAux totalExp fuel (level + 1)

/-- `GetLevelFromExp` from the gamification service (package `services`). -/
def GetLevelFromExp (totalExp : Int) : Int :=
  getLevelFromExpAux totalExp 99 1

/-- `GetRequiredExpForLevel` — required EXP for a specific level. -/
def GetRequiredExpForLevel (level : Int) : Int :=
  BaseExp * level * level

/-- `GetLevelProgress` — the source's comment says "progress to next
level (0-100)".  Go's `/` on `int` truncates toward zero: `Int.div`. -/
def GetLevelProgress (totalExp : Int) : Int :=
  let currentLevel := GetLevelFromExp totalExp
  if currentLevel ≥ MaxLevel then 100
  else
    let currentLevelExp := GetRequiredExpForLevel currentLevel
    let nextLevelExp := GetRequiredExpForLevel (currentLevel + 1)
    let expInCurrentLevel := totalExp - currentLevelExp
    let expNeeded := nextLevelExp - currentLevelExp
    if expNeeded ≤ 0 then 100
    else Int.tdiv (expInCurrentLevel * 100) expNeeded

/-- `GetExpToNextLevel`. -/
def GetExpToNextLevel (totalExp : Int) : Int :=
  let currentLevel := GetLevelFromExp totalExp
  if currentLevel ≥ MaxLevel then 0
  else GetRequiredExpForLevel (currentLevel + 1) - totalExp

/-- The descending threshold walk of `GetLevelTitle`: the source pairs a
`titles` map with the explicit ordered slice `[100, 50, 20, 10, 5, 1]`
and returns `titles[threshold]` at the first `level >= threshold`. -/
def getLevelTitleLoop (level : Int) : List (Int × String) → String
  | [] => "Pemula"
  | (threshold, title) :: rest =>
    if level ≥ threshold then title else getLevelTitleLoop level rest

/-- The threshold table of `GetLevelTitle`, in the source's descending
iteration order with each threshold paired with `titles[threshold]`. -/
def levelTitleTable : List (Int × String) :=
  [(100, "Legend"), (50, "Master"), (20, "Expert"),
   (10, "Contributor"), (5, "Aktif"), (1, "Pemula")]

/-- `GetLevelTitle` — title for a given level. -/
def GetLevelTitle (level : Int) : String :=
  getLevelTitleLoop level levelTitleTable

end Services

namespace Models

/-- Transaction status constants (package `models`): the status column
only ever holds the constants `pending`, `success`, `failed`. -/
inductive TransactionStatus where
  | pending
  | success
  | failed
deriving DecidableEq, Repr

/-- The `Transaction` model row (package `models`); relationship preload
fields are views over other rows and are not duplicated here. -/
structure Transaction where
  id : Nat
  projectID : Nat
  buyerID : Nat
  sellerID : Nat
  amount : Int
  status : TransactionStatus
  midtransOrderID : Option String
  midtransTransactionID : Option String
deriving DecidableEq, Repr

/-- The `User` model row, restricted to the fields the transaction and
gamification core reads or writes: the primary key and `TotalExp`.  The
profile columns (email, name, role, …) are never consulted by the code
under verification. -/
structure User where
  id : Nat
  totalExp : Int
deriving DecidableEq, Repr

/-- Project type constants; `CreateSnapTransaction` only compares
against `ProjectTypePaid`. -/
inductive ProjectType where
  | free
  | paid
deriving DecidableEq, Repr

/-- The `Project` model row, restricted to the fields
`CreateSnapTransaction` reads: primary key, owner (`UserID`), `Price`
and `Type`. -/
structure Project where
  id : Nat
  userID : Nat
  price : Int
  type : ProjectType
deriving DecidableEq, Repr

/-- Loop body of the duplicate `GetLevelFromExp` in package `models`
(user model helper), which writes the literals `100` directly instead of
the `BaseExp`/`MaxLevel` constants.  Same fuel coupling as the services
copy: fuel counts the remaining iterations below the `level < 100`
bound. -/
def getLevelFromExpAux (totalExp : Int) : Nat → Int → Int
  | 0, level => level
  | fuel + 1, level =>
    if totalExp < 100 * level * level then level
    else getLevelFromExpAux totalExp fuel (level + 1)

/-- `GetLevelFromExp` from package `models` (gamification helper on the
user model). -/
def GetLevelFromExp (totalExp : Int) : Int :=
  getLevelFromExpAux totalExp 99 1

end Models

namespace Services

open Models

/-- Errors returned by the transaction service; the Go source returns
`error` values with these distinct messages. -/
inductive MidtransError where
  /-- "project tidak ditemukan" -/
  | projectNotFound
  /-- "project ini gratis" -/
  | projectFree
  /-- "Anda sudah membeli project ini" -/
  | alreadyPurchased
  /-- "signature tidak valid" -/
  | invalidSignature
  /-- "transaksi tidak ditemukan" -/
  | transactionNotFound
deriving DecidableEq, Repr

/-- The webhook notification payload, restricted to the fields
`HandleMidtransNotification` reads (`transaction_time`,
`status_message`, `payment_type` and `merchant_id` are carried on the
wire but never consulted by the handler). -/
structure MidtransNotification where
  transactionStatus : String
  transactionID : String
  statusCode : String
  signatureKey : String
  orderID : String
  grossAmount : String
  fraudStatus : String
deriving DecidableEq, Repr

/-- The persistent state the transaction service touches: the
`transactions` and `users` tables. -/
structure DBState where
  transactions : List Transaction
  users : List User
deriving DecidableEq, Repr

/-- `AddUserExp` (auth service): a single
`UPDATE users SET total_exp = total_exp + exp WHERE id = ?` — an atomic
in-database increment that silently matches zero rows when the user is
absent. -/
def AddUserExp (users : List User) (userID : Nat) (exp : Int) : List User :=
  users.map fun u =>
    if u.id = userID then { u with totalExp := u.totalExp + exp } else u

/-- gorm `db.Save(&transaction)`: update the row with the same primary
key. -/
def saveTransaction (transactions : List Transaction) (t : Transaction) :
    List Transaction :=
  transactions.map fun t0 => if t0.id = t.id then t else t0

/-- `CreateSnapTransaction`, up to and including the `db.Create` of the
`pending` row.  The subsequent Midtrans Snap HTTP call only reads the
row; a gateway failure leaves the inserted `pending` row in place (the
source has no cleanup), so the post-insert state is the state of record
either way.  `newTransactionID` stands for the generated UUID primary
key and `nowUnix` for `time.Now().Unix()`; the order id mirrors the
source's `fmt.Sprintf("PURCHASE-%s-%d", projectID-prefix, unix-time)`
with the `Nat`-modelled project id printed in place of the UUID
prefix. -/
def CreateSnapTransaction (projects : List Project) (db : DBState)
    (newTransactionID : Nat) (nowUnix : Int) (projectID buyerID : Nat) :
    Except MidtransError (DBState × Transaction) :=
  match projects.find? (fun p => p.id == projectID) with
  | none => Except.error MidtransError.projectNotFound
  | some project =>
    if project.type ≠ ProjectType.paid then
      Except.error MidtransError.projectFree
    else if (db.transactions.find? (fun t =>
        t.projectID == projectID && t.buyerID == buyerID &&
        t.status == TransactionStatus.success)).isSome then
      Except.error MidtransError.alreadyPurchased
    else
      let orderID := "PURCHASE-" ++ toString projectID ++ "-" ++ toString nowUnix
      let transaction : Transaction :=
        { id := newTransactionID
          projectID := projectID
          buyerID := buyerID
          sellerID := project.userID
          amount := project.price
          status := TransactionStatus.pending
          midtransOrderID := some orderID
          midtransTransactionID := none }
      Except.ok ({ transactions := db.transactions ++ [transaction],
                   users := db.users }, transaction)

/-- `HandleMidtransNotification`: verify the signature, look the
transaction up by `midtrans_order_id`, stamp the gateway's
`transaction_id`, map the gateway status onto the row with the source's
`switch`, and `db.Save` the row.  `sha512Hex` abstracts
`hex.EncodeToString(sha512.Sum512(·))` and `serverKey` is
`cfg.Midtrans.ServerKey`.  Note the source applies the mapping to
whatever the row's current status is — there is no guard on the
previous status — and the `AddUserExp` calls in the success arm run on
every such notification. -/
def HandleMidtransNotification (sha512Hex : String → String)
    (serverKey : String) (db : DBState)
    (notification : MidtransNotification) : Except MidtransError DBState :=
  let signatureData := notification.orderID ++ notification.statusCode ++
    notification.grossAmount ++ serverKey
  let expectedSignature := sha512Hex signatureData
  if notification.signatureKey ≠ expectedSignature then
    Except.error MidtransError.invalidSignature
  else
    match db.transactions.find?
        (fun t => t.midtransOrderID == some notification.orderID) with
    | none => Except.error MidtransError.transactionNotFound
    | some transaction0 =>
      let transaction1 :=
        { transaction0 with midtransTransactionID := some notification.transactionID }
      if notification.transactionStatus = "capture" ∨
          notification.transactionStatus = "settlement" then
        if notification.fraudStatus = "accept" ∨ notification.fraudStatus = "" then
          let transaction2 := { transaction1 with status := TransactionStatus.success }
          let users1 := AddUserExp db.users transaction2.buyerID ExpBuyProject
          let users2 := AddUserExp users1 transaction2.sellerID ExpSellProject
          Except.ok { transactions := saveTransaction db.transactions transaction2,
                      users := users2 }
        else
          Except.ok { transactions := saveTransaction db.transactions transaction1,
                      users := db.users }
      else if notification.transactionStatus = "pending" then
        Except.ok { transactions := saveTransaction db.transactions
                      { transaction1 with status := TransactionStatus.pending },
                    users := db.users }
      else if notification.transactionStatus = "deny" ∨
          notification.transactionStatus = "cancel" ∨
          notification.transactionStatus = "expire" then
        Except.ok { transactions := saveTransaction db.transactions
                      { transaction1 with status := TransactionStatus.failed },
                    users := db.users }
      else
        Except.ok { transactions := saveTransaction db.transactions transaction1,
                    users := db.users }

end Services

/-! ### Helper lemmas about the leveling loop -/

/-- The leveling loop never returns below its starting level. -/
theorem le_getLevelFromExpAux (totalExp : Int) :
    ∀ (fuel : Nat) (level : Int),
      level ≤ Services.getLevelFromExpAux totalExp fuel level := by
  intro fuel
  induction fuel with
  | zero =>
    intro level
    simp [Services.getLevelFromExpAux]
  | succ f ih =>
    intro level
    simp only [Services.getLevelFromExpAux]
    split
    · exact le_refl level
    · exact le_trans (by linarith) (ih (level + 1))

/-- The leveling loop increments at most once per unit of fuel. -/
theorem getLevelFromExpAux_le (totalExp : Int) :
    ∀ (fuel : Nat) (level : Int),
      Services.getLevelFromExpAux totalExp fuel level ≤ level + fuel := by
  intro fuel
  induction fuel with
  | zero =>
    intro level
    simp [Services.getLevelFromExpAux]
  | succ f ih =>
    intro level
    simp only [Services.getLevelFromExpAux]
    split
    · push_cast
      linarith
    · refine le_trans (ih (level + 1)) ?_
      push_cast
      linarith

/-- Once the threshold test fails the loop stops at the current level,
whatever fuel remains. -/
theorem getLevelFromExpAux_stop (totalExp : Int) (fuel : Nat) (level : Int)
    (h : totalExp < Services.BaseExp * level * level) :
    Services.getLevelFromExpAux totalExp fuel level = level := by
  cases fuel with
  | zero => rfl
  | succ f => simp only [Services.getLevelFromExpAux, if_pos h]

/-- Exact value of the loop on a threshold input `BaseExp * L * L`: the
loop climbs past `L` and stops at `L + 1` (given enough fuel). -/
theorem getLevelFromExpAux_exact (L : Int) (hL : 1 ≤ L) :
    ∀ (fuel : Nat) (level : Int), 1 ≤ level → level ≤ L →
      L + 1 ≤ level + fuel →
      Services.getLevelFromExpAux (Services.BaseExp * L * L) fuel level = L + 1 := by
  intro fuel
  induction fuel with
  | zero =>
    intro level _ h2 h3
    exfalso
    push_cast at h3
    linarith
  | succ f ih =>
    intro level h1 h2 h3
    have hreq : ¬ (Services.BaseExp * L * L < Services.BaseExp * level * level) := by
      simp only [Services.BaseExp]
      nlinarith
    simp only [Services.getLevelFromExpAux, if_neg hreq]
    by_cases hcase : level = L
    · subst hcase
      refine getLevelFromExpAux_stop _ f (level + 1) ?_
      simp only [Services.BaseExp]
      nlinarith
    · refine ih (level + 1) (by linarith) (by omega) ?_
      push_cast at h3 ⊢
      linarith

/-- The leveling loop is monotone in the experience argument. -/
theorem getLevelFromExpAux_mono (a b : Int) (hab : a ≤ b) :
    ∀ (fuel : Nat) (level : Int),
      Services.getLevelFromExpAux a fuel level ≤
        Services.getLevelFromExpAux b fuel level := by
  intro fuel
  induction fuel with
  | zero =>
    intro level
    simp [Services.getLevelFromExpAux]
  | succ f ih =>
    intro level
    simp only [Services.getLevelFromExpAux]
    by_cases ha : a < Services.BaseExp * level * level
    · rw [if_pos ha]
      split
      · exact le_refl level
      · exact le_trans (by linarith) (le_getLevelFromExpAux b f (level + 1))
    · rw [if_neg ha, if_neg (fun hb => ha (lt_of_le_of_lt hab hb))]
      exact ih (level + 1)

/-- The `models` package copy of the leveling loop computes the same
function as the `services` copy (literal `100` versus `BaseExp`). -/
theorem models_getLevelFromExpAux_eq (totalExp : Int) :
    ∀ (fuel : Nat) (level : Int),
      Models.getLevelFromExpAux totalExp fuel level =
        Services.getLevelFromExpAux totalExp fuel level := by
  intro fuel
  induction fuel with
  | zero =>
    intro level
    rfl
  | succ f ih =>
    intro level
    simp only [Models.getLevelFromExpAux, Services.getLevelFromExpAux,
      show Services.BaseExp = (100 : Int) from rfl]
    by_cases h : totalExp < 100 * level * level
    · rw [if_pos h, if_pos h]
    · rw [if_neg h, if_neg h]
      exact ih (level + 1)

/-! ### Claim theorems -/

/-- C3: the claim says `GetLevelProgress(totalExp)` lies in `[0,100]`
for every non-negative `totalExp` and is `0` at each level threshold.
The code violates this (its own comment promises "(0-100)"): because
`GetRequiredExpForLevel(currentLevel)` is the *exit* threshold of the
current level, `expInCurrentLevel` is negative below it, so
`GetLevelProgress 0 = -33`, `GetLevelProgress (GetRequiredExpForLevel 1)
= GetLevelProgress 100 = -60` (not `0`), and `GetLevelProgress 500 =
-57`. -/
theorem C3_level_progress_negative :
    Services.GetLevelProgress 0 = -33 ∧
    Services.GetLevelProgress (Services.GetRequiredExpForLevel 1) = -60 ∧
    Services.GetLevelProgress 500 = -57 :=
  ⟨by decide, by decide, by decide⟩

/-- C4 counterexample: the claimed round trip
`GetLevelFromExp (GetRequiredExpForLevel L) = L` already fails at
`L = 1`: `GetRequiredExpForLevel 1 = 100` and `GetLevelFromExp 100 = 2`,
not `1`. -/
theorem C4_round_trip_counterexample :
    Services.GetLevelFromExp (Services.GetRequiredExpForLevel 1) ≠ 1 ∧
    Services.GetLevelFromExp (Services.GetRequiredExpForLevel 1) = 2 :=
  ⟨by decide, by decide⟩

/-- C4 (amended): the two functions round-trip with an off-by-one —
`BaseExp * L * L` is the *exit* threshold of level `L`, so for every
`1 ≤ L ≤ 99`, `GetLevelFromExp (GetRequiredExpForLevel L) = L + 1`. -/
theorem C4_round_trip_amended (L : Int) (h1 : 1 ≤ L) (h2 : L ≤ 99) :
    Services.GetLevelFromExp (Services.GetRequiredExpForLevel L) = L + 1 := by
  unfold Services.GetLevelFromExp Services.GetRequiredExpForLevel
  refine getLevelFromExpAux_exact L h1 99 1 (le_refl 1) h1 ?_
  push_cast
  linarith

/-- C4 witness: instantiating the amended round trip at `L = 5`:
`GetRequiredExpForLevel 5 = 2500` maps to level `6`. -/
theorem C4_round_trip_amended_witness :
    Services.GetLevelFromExp (Services.GetRequiredExpForLevel 5) = 6 :=
  C4_round_trip_amended 5 (by norm_num) (by norm_num)

/-- C8 counterexample: the claim's instance `GetLevelTitle 99 =
"Expert"` contradicts its own lookup rule — the highest threshold
`≤ 99` in the table is `50`, so the code returns `"Master"`. -/
theorem C8_title_counterexample :
    Services.GetLevelTitle 99 ≠ "Expert" ∧
    Services.GetLevelTitle 99 = "Master" :=
  ⟨by decide, by decide⟩

/-- C8 (amended): `GetLevelTitle` is the descending-threshold lookup of
the claim (highest threshold `≤ level` wins, default `"Pemula"`), with
anchors `1 ↦ "Pemula"`, `5 ↦ "Aktif"`, `99 ↦ "Master"` (falling to the
50 threshold, not the claimed `"Expert"`), `100 ↦ "Legend"`; the full
band structure is stated for every integer level. -/
theorem C8_title_amended :
    Services.GetLevelTitle 1 = "Pemula" ∧
    Services.GetLevelTitle 5 = "Aktif" ∧
    Services.GetLevelTitle 99 = "Master" ∧
    Services.GetLevelTitle 100 = "Legend" ∧
    (∀ level : Int, 100 ≤ level → Services.GetLevelTitle level = "Legend") ∧
    (∀ level : Int, 50 ≤ level → level < 100 →
      Services.GetLevelTitle level = "Master") ∧
    (∀ level : Int, 20 ≤ level → level < 50 →
      Services.GetLevelTitle level = "Expert") ∧
    (∀ level : Int, 10 ≤ level → level < 20 →
      Services.GetLevelTitle level = "Contributor") ∧
    (∀ level : Int, 5 ≤ level → level < 10 →
      Services.GetLevelTitle level = "Aktif") ∧
    (∀ level : Int, level < 5 → Services.GetLevelTitle level = "Pemula") := by
  refine ⟨by decide, by decide, by decide, by decide, ?_, ?_, ?_, ?_, ?_, ?_⟩
  all_goals
    intro level
    simp only [Services.GetLevelTitle, Services.levelTitleTable,
      Services.getLevelTitleLoop]
  · intro h1
    rw [if_pos (by omega)]
  · intro h1 h2
    rw [if_neg (by omega), if_pos (by omega)]
  · intro h1 h2
    rw [if_neg (by omega), if_neg (by omega), if_pos (by omega)]
  · intro h1 h2
    rw [if_neg (by omega), if_neg (by omega), if_neg (by omega),
      if_pos (by omega)]
  · intro h1 h2
    rw [if_neg (by omega), if_neg (by omega), if_neg (by omega),
      if_neg (by omega), if_pos (by omega)]
  · intro h1
    rw [if_neg (by omega), if_neg (by omega), if_neg (by omega),
      if_neg (by omega), if_neg (by omega)]
    split
    · rfl
    · rfl

/-- C8 witness: the amended band structure applied at level `75`
(between 50 and 100) gives `"Master"`. -/
theorem C8_title_amended_witness :
    Services.GetLevelTitle 75 = "Master" :=
  C8_title_amended.2.2.2.2.2.1 75 (by norm_num) (by norm_num)

/-- C9: `GetLevelFromExp` meets the spec's anchor values
(`0 ↦ 1`, `100 ↦ 2`, `400 ↦ 3`, `900 ↦ 4`) and for every non-negative
`totalExp` the result lies in `[1, MaxLevel] = [1, 100]`. -/
theorem C9_level_anchors_and_bounds :
    Services.GetLevelFromExp 0 = 1 ∧
    Services.GetLevelFromExp 100 = 2 ∧
    Services.GetLevelFromExp 400 = 3 ∧
    Services.GetLevelFromExp 900 = 4 ∧
    (∀ totalExp : Int, 0 ≤ totalExp →
      1 ≤ Services.GetLevelFromExp totalExp ∧
        Services.GetLevelFromExp totalExp ≤ 100) := by
  refine ⟨by decide, by decide, by decide, by decide, ?_⟩
  intro totalExp _
  constructor
  · exact le_getLevelFromExpAux totalExp 99 1
  · refine le_trans (getLevelFromExpAux_le totalExp 99 1) ?_
    norm_num

/-- C9 witness: the bounds applied at `totalExp = 7`. -/
theorem C9_level_anchors_and_bounds_witness :
    1 ≤ Services.GetLevelFromExp 7 ∧ Services.GetLevelFromExp 7 ≤ 100 :=
  C9_level_anchors_and_bounds.2.2.2.2 7 (by norm_num)

/-- C10: `GetLevelFromExp` is total over every integer input with range
`[1, 100]`, every `totalExp < 100` (negatives included) yields level
`1`, the function is monotone, and the duplicate definition in the
`models` package computes the same function. -/
theorem C10_level_total_monotone_duplicate :
    (∀ totalExp : Int, 1 ≤ Services.GetLevelFromExp totalExp ∧
      Services.GetLevelFromExp totalExp ≤ 100) ∧
    (∀ totalExp : Int, totalExp < 100 →
      Services.GetLevelFromExp totalExp = 1) ∧
    (∀ a b : Int, a ≤ b →
      Services.GetLevelFromExp a ≤ Services.GetLevelFromExp b) ∧
    (∀ totalExp : Int,
      Models.GetLevelFromExp totalExp = Services.GetLevelFromExp totalExp) := by
  refine ⟨?_, ?_, ?_, ?_⟩
  · intro totalExp
    constructor
    · exact le_getLevelFromExpAux totalExp 99 1
    · refine le_trans (getLevelFromExpAux_le totalExp 99 1) ?_
      norm_num
  · intro totalExp h
    refine getLevelFromExpAux_stop totalExp 99 1 ?_
    simp only [Services.BaseExp]
    linarith
  · intro a b hab
    exact getLevelFromExpAux_mono a b hab 99 1
  · intro totalExp
    exact models_getLevelFromExpAux_eq totalExp 99 1

/-- C10 witness: monotonicity applied at `-7 ≤ 3`, totality at `-7`,
and agreement of the duplicate definitions at `-7`. -/
theorem C10_level_total_monotone_duplicate_witness :
    Services.GetLevelFromExp (-7) ≤ Services.GetLevelFromExp 3 ∧
    Services.GetLevelFromExp (-7) = 1 ∧
    Models.GetLevelFromExp (-7) = Services.GetLevelFromExp (-7) :=
  ⟨C10_level_total_monotone_duplicate.2.2.1 (-7) 3 (by norm_num),
   C10_level_total_monotone_duplicate.2.1 (-7) (by norm_num),
   C10_level_total_monotone_duplicate.2.2.2 (-7)⟩

/-- C1: the claim requires reward crediting to be idempotent against
webhook replay — EXP granted only on the transition into `success`.
The code has no previous-status guard: the first validly-signed
`settlement`+`accept` notification on a `pending` transaction credits
buyer `+50` and seller `+150` (first conjunct, the claim's first half),
but replaying the identical notification against the now-`success`
transaction credits both again, taking the buyer to `100` and the
seller to `300` instead of leaving `totalExp` unchanged (second
conjunct). -/
theorem C1_replay_double_credits :
    (Services.HandleMidtransNotification (fun s => "h" ++ s) "serverkey"
      ⟨[⟨1, 10, 2, 3, 50000, Models.TransactionStatus.pending,
          some "ORD-1", none⟩],
       [⟨2, 0⟩, ⟨3, 0⟩]⟩
      ⟨"settlement", "mt-1", "200", "hORD-120050000.00serverkey",
        "ORD-1", "50000.00", "accept"⟩
      = Except.ok
        ⟨[⟨1, 10, 2, 3, 50000, Models.TransactionStatus.success,
            some "ORD-1", some "mt-1"⟩],
         [⟨2, 50⟩, ⟨3, 150⟩]⟩) ∧
    (Services.HandleMidtransNotification (fun s => "h" ++ s) "serverkey"
      ⟨[⟨1, 10, 2, 3, 50000, Models.TransactionStatus.success,
          some "ORD-1", some "mt-1"⟩],
       [⟨2, 50⟩, ⟨3, 150⟩]⟩
      ⟨"settlement", "mt-1", "200", "hORD-120050000.00serverkey",
        "ORD-1", "50000.00", "accept"⟩
      = Except.ok
        ⟨[⟨1, 10, 2, 3, 50000, Models.TransactionStatus.success,
            some "ORD-1", some "mt-1"⟩],
         [⟨2, 100⟩, ⟨3, 300⟩]⟩) :=
  ⟨rfl, rfl⟩

/-- C2: the claim says `success` and `failed` are terminal.  The code
applies the status mapping regardless of the current status: a
validly-signed `deny` notification moves a `success` transaction to
`failed` (first conjunct), and a `settlement`+`accept` notification
moves a `failed` transaction to `success` — crediting EXP as it goes
(second conjunct).  Neither state is terminal. -/
theorem C2_terminal_states_violated :
    (Services.HandleMidtransNotification (fun s => "h" ++ s) "serverkey"
      ⟨[⟨1, 10, 2, 3, 50000, Models.TransactionStatus.success,
          some "ORD-1", some "mt-1"⟩],
       [⟨2, 50⟩, ⟨3, 150⟩]⟩
      ⟨"deny", "mt-2", "202", "hORD-120250000.00serverkey",
        "ORD-1", "50000.00", ""⟩
      = Except.ok
        ⟨[⟨1, 10, 2, 3, 50000, Models.TransactionStatus.failed,
            some "ORD-1", some "mt-2"⟩],
         [⟨2, 50⟩, ⟨3, 150⟩]⟩) ∧
    (Services.HandleMidtransNotification (fun s => "h" ++ s) "serverkey"
      ⟨[⟨1, 10, 2, 3, 50000, Models.TransactionStatus.failed,
          some "ORD-1", some "mt-2"⟩],
       [⟨2, 50⟩, ⟨3, 150⟩]⟩
      ⟨"settlement", "mt-3", "200", "hORD-120050000.00serverkey",
        "ORD-1", "50000.00", "accept"⟩
      = Except.ok
        ⟨[⟨1, 10, 2, 3, 50000, Models.TransactionStatus.success,
            some "ORD-1", some "mt-3"⟩],
         [⟨2, 100⟩, ⟨3, 300⟩]⟩) :=
  ⟨rfl, rfl⟩

/-- C5: the first conjunct shows the claim's rejection behaviour holds:
creating a purchase for a `(projectId, buyerId)` pair that already has
a `success` transaction fails with the already-purchased error before
any row is inserted.  The remaining conjuncts refute the claimed
invariant: the duplicate check only looks for `success` rows, and the
schema has no uniqueness constraint, so two `pending` transactions for
the same pair (created at Unix times 1000 and 2000) are both accepted,
and each of their validly-signed settlement notifications then drives
its row to `success` — two `success` transactions for the same
`(projectId, buyerId) = (10, 2)`, with the rewards also credited
twice. -/
theorem C5_duplicate_success_reachable :
    (Services.CreateSnapTransaction [⟨10, 3, 50000, Models.ProjectType.paid⟩]
      ⟨[⟨1, 10, 2, 3, 50000, Models.TransactionStatus.success,
          some "PURCHASE-10-1000", some "mt-1"⟩],
       [⟨2, 50⟩, ⟨3, 150⟩]⟩ 2 2000 10 2
      = Except.error Services.MidtransError.alreadyPurchased) ∧
    (Services.CreateSnapTransaction [⟨10, 3, 50000, Models.ProjectType.paid⟩]
      ⟨[], [⟨2, 0⟩, ⟨3, 0⟩]⟩ 1 1000 10 2
      = Except.ok
        (⟨[⟨1, 10, 2, 3, 50000, Models.TransactionStatus.pending,
             some "PURCHASE-10-1000", none⟩],
          [⟨2, 0⟩, ⟨3, 0⟩]⟩,
         ⟨1, 10, 2, 3, 50000, Models.TransactionStatus.pending,
           some "PURCHASE-10-1000", none⟩)) ∧
    (Services.CreateSnapTransaction [⟨10, 3, 50000, Models.ProjectType.paid⟩]
      ⟨[⟨1, 10, 2, 3, 50000, Models.TransactionStatus.pending,
          some "PURCHASE-10-1000", none⟩],
        [⟨2, 0⟩, ⟨3, 0⟩]⟩ 2 2000 10 2
      = Except.ok
        (⟨[⟨1, 10, 2, 3, 50000, Models.TransactionStatus.pending,
             some "PURCHASE-10-1000", none⟩,
           ⟨2, 10, 2, 3, 50000, Models.TransactionStatus.pending,
             some "PURCHASE-10-2000", none⟩],
          [⟨2, 0⟩, ⟨3, 0⟩]⟩,
         ⟨2, 10, 2, 3, 50000, Models.TransactionStatus.pending,
           some "PURCHASE-10-2000", none⟩)) ∧
    (Services.HandleMidtransNotification (fun s => "h" ++ s) "serverkey"
      ⟨[⟨1, 10, 2, 3, 50000, Models.TransactionStatus.pending,
           some "PURCHASE-10-1000", none⟩,
        ⟨2, 10, 2, 3, 50000, Models.TransactionStatus.pending,
           some "PURCHASE-10-2000", none⟩],
       [⟨2, 0⟩, ⟨3, 0⟩]⟩
      ⟨"settlement", "mt-1", "200", "hPURCHASE-10-100020050000.00serverkey",
        "PURCHASE-10-1000", "50000.00", "accept"⟩
      = Except.ok
        ⟨[⟨1, 10, 2, 3, 50000, Models.TransactionStatus.success,
             some "PURCHASE-10-1000", some "mt-1"⟩,
          ⟨2, 10, 2, 3, 50000, Models.TransactionStatus.pending,
             some "PURCHASE-10-2000", none⟩],
         [⟨2, 50⟩, ⟨3, 150⟩]⟩) ∧
    (Services.HandleMidtransNotification (fun s => "h" ++ s) "serverkey"
      ⟨[⟨1, 10, 2, 3, 50000, Models.TransactionStatus.success,
           some "PURCHASE-10-1000", some "mt-1"⟩,
        ⟨2, 10, 2, 3, 50000, Models.TransactionStatus.pending,
           some "PURCHASE-10-2000", none⟩],
       [⟨2, 50⟩, ⟨3, 150⟩]⟩
      ⟨"settlement", "mt-2", "200", "hPURCHASE-10-200020050000.00serverkey",
        "PURCHASE-10-2000", "50000.00", "accept"⟩
      = Except.ok
        ⟨[⟨1, 10, 2, 3, 50000, Models.TransactionStatus.success,
             some "PURCHASE-10-1000", some "mt-1"⟩,
          ⟨2, 10, 2, 3, 50000, Models.TransactionStatus.success,
             some "PURCHASE-10-2000", some "mt-2"⟩],
         [⟨2, 100⟩, ⟨3, 300⟩]⟩) :=
  ⟨rfl, rfl, rfl, rfl, rfl⟩

/-- C6: a notification whose `signature_key` differs from
`sha512Hex(order_id ++ status_code ++ gross_amount ++ serverKey)` is
rejected with the invalid-signature error — and since the handler only
produces a new state through `Except.ok`, the rejection changes no
transaction and no `totalExp`; conversely, a notification whose
`signature_key` equals that value passes verification (never yields the
invalid-signature error).  Stated for every abstract hash function,
server key, database state and notification. -/
theorem C6_signature_check (sha512Hex : String → String) (serverKey : String)
    (db : Services.DBState) (n : Services.MidtransNotification) :
    (n.signatureKey ≠
        sha512Hex (n.orderID ++ n.statusCode ++ n.grossAmount ++ serverKey) →
      Services.HandleMidtransNotification sha512Hex serverKey db n =
        Except.error Services.MidtransError.invalidSignature) ∧
    (n.signatureKey =
        sha512Hex (n.orderID ++ n.statusCode ++ n.grossAmount ++ serverKey) →
      Services.HandleMidtransNotification sha512Hex serverKey db n ≠
        Except.error Services.MidtransError.invalidSignature) := by
  constructor
  · intro h
    simp only [Services.HandleMidtransNotification]
    rw [if_pos h]
  · intro h
    simp only [Services.HandleMidtransNotification]
    rw [if_neg (fun hne => hne h)]
    cases hfind : db.transactions.find?
        (fun t => t.midtransOrderID == some n.orderID) with
    | none => simp
    | some t => split_ifs <;> simp

/-- C6 witness: with the identity standing in for the hash and an empty
server key, a tampered signature is rejected and a matching signature
is not rejected. -/
theorem C6_signature_check_witness :
    (Services.HandleMidtransNotification (fun s => s) "" ⟨[], []⟩
      ⟨"settlement", "", "", "tampered", "ORD", "", ""⟩ =
        Except.error Services.MidtransError.invalidSignature) ∧
    (Services.HandleMidtransNotification (fun s => s) "" ⟨[], []⟩
      ⟨"settlement", "", "", "ORD", "ORD", "", ""⟩ ≠
        Except.error Services.MidtransError.invalidSignature) :=
  ⟨(C6_signature_check (fun s => s) "" ⟨[], []⟩
      ⟨"settlement", "", "", "tampered", "ORD", "", ""⟩).1 (by decide),
   (C6_signature_check (fun s => s) "" ⟨[], []⟩
      ⟨"settlement", "", "", "ORD", "ORD", "", ""⟩).2 (by decide)⟩

/-- C7: for every validly-signed notification that resolves to an
existing transaction, the gateway status maps onto the row exactly as
claimed: `capture`/`settlement` with `fraud_status` `accept` or empty
yields `success` (this arm also runs the EXP credits);
`capture`/`settlement` with any other `fraud_status` leaves the status
unchanged and grants no experience; `pending` yields `pending`;
`deny`/`cancel`/`expire` yields `failed`; any other
`transaction_status` leaves the status unchanged and grants no
experience.  In every arm only the gateway `transaction_id` stamp and
the stated status/EXP changes occur. -/
theorem C7_status_mapping (sha512Hex : String → String) (serverKey : String)
    (db : Services.DBState) (n : Services.MidtransNotification)
    (t : Models.Transaction)
    (hsig : n.signatureKey =
      sha512Hex (n.orderID ++ n.statusCode ++ n.grossAmount ++ serverKey))
    (hfind : db.transactions.find?
      (fun t0 => t0.midtransOrderID == some n.orderID) = some t) :
    ((n.transactionStatus = "capture" ∨ n.transactionStatus = "settlement") →
      ((n.fraudStatus = "accept" ∨ n.fraudStatus = "") →
        Services.HandleMidtransNotification sha512Hex serverKey db n =
          Except.ok ⟨Services.saveTransaction db.transactions
              { t with midtransTransactionID := some n.transactionID,
                       status := Models.TransactionStatus.success },
            Services.AddUserExp
              (Services.AddUserExp db.users t.buyerID Services.ExpBuyProject)
              t.sellerID Services.ExpSellProject⟩) ∧
      (¬ (n.fraudStatus = "accept" ∨ n.fraudStatus = "") →
        Services.HandleMidtransNotification sha512Hex serverKey db n =
          Except.ok ⟨Services.saveTransaction db.transactions
              { t with midtransTransactionID := some n.transactionID },
            db.users⟩)) ∧
    (n.transactionStatus = "pending" →
      Services.HandleMidtransNotification sha512Hex serverKey db n =
        Except.ok ⟨Services.saveTransaction db.transactions
            { t with midtransTransactionID := some n.transactionID,
                     status := Models.TransactionStatus.pending },
          db.users⟩) ∧
    ((n.transactionStatus = "deny" ∨ n.transactionStatus = "cancel" ∨
        n.transactionStatus = "expire") →
      Services.HandleMidtransNotification sha512Hex serverKey db n =
        Except.ok ⟨Services.saveTransaction db.transactions
            { t with midtransTransactionID := some n.transactionID,
                     status := Models.TransactionStatus.failed },
          db.users⟩) ∧
    (¬ (n.transactionStatus = "capture" ∨ n.transactionStatus = "settlement") →
      n.transactionStatus ≠ "pending" →
      ¬ (n.transactionStatus = "deny" ∨ n.transactionStatus = "cancel" ∨
        n.transactionStatus = "expire") →
      Services.HandleMidtransNotification sha512Hex serverKey db n =
        Except.ok ⟨Services.saveTransaction db.transactions
            { t with midtransTransactionID := some n.transactionID },
          db.users⟩) := by
  have hnotsig : ¬ (n.signatureKey ≠
      sha512Hex (n.orderID ++ n.statusCode ++ n.grossAmount ++ serverKey)) :=
    fun hne => hne hsig
  refine ⟨fun h1 => ⟨fun h2 => ?_, fun h2 => ?_⟩, fun h1 => ?_, fun h1 => ?_,
    fun h1 h2 h3 => ?_⟩
  · simp only [Services.HandleMidtransNotification, hfind]
    rw [if_neg hnotsig, if_pos h1, if_pos h2]
  · simp only [Services.HandleMidtransNotification, hfind]
    rw [if_neg hnotsig, if_pos h1, if_neg h2]
  · simp only [Services.HandleMidtransNotification, hfind]
    rw [if_neg hnotsig, if_neg (by simp [h1]), if_pos h1]
  · simp only [Services.HandleMidtransNotification, hfind]
    rw [if_neg hnotsig, if_neg (by rcases h1 with h | h | h <;> simp [h]),
      if_neg (by rcases h1 with h | h | h <;> simp [h]), if_pos h1]
  · simp only [Services.HandleMidtransNotification, hfind]
    rw [if_neg hnotsig, if_neg h1, if_neg h2, if_neg h3]

/-- C7 witness: the `deny` arm of the mapping applied to a concrete
`pending` transaction — the row is stamped with the gateway id and
moved to `failed`, users untouched. -/
theorem C7_status_mapping_witness :
    Services.HandleMidtransNotification (fun s => s) ""
      ⟨[⟨1, 10, 2, 3, 5, Models.TransactionStatus.pending, some "OID", none⟩],
       []⟩
      ⟨"deny", "mt", "202", "OID202100", "OID", "100", ""⟩ =
      Except.ok ⟨Services.saveTransaction
          [⟨1, 10, 2, 3, 5, Models.TransactionStatus.pending, some "OID", none⟩]
          { (⟨1, 10, 2, 3, 5, Models.TransactionStatus.pending, some "OID",
              none⟩ : Models.Transaction) with
            midtransTransactionID := some "mt",
            status := Models.TransactionStatus.failed },
        []⟩ :=
  (C7_status_mapping (fun s => s) ""
    ⟨[⟨1, 10, 2, 3, 5, Models.TransactionStatus.pending, some "OID", none⟩], []⟩
    ⟨"deny", "mt", "202", "OID202100", "OID", "100", ""⟩
    ⟨1, 10, 2, 3, 5, Models.TransactionStatus.pending, some "OID", none⟩
    (by decide) (by decide)).2.2.1 (Or.inl rfl)

end CampusHub
